import Mathlib

/-!
Verification of the Raydium launchpad transaction parser (Go).

This file shallowly embeds the instruction classification and decoding
engine of the repository: the data model of `types.go`, the helpers of
`utils.go`, and the standard decoding path of the main parser file
(`parseInstruction` and every parser it reaches, together with the
discriminator constants and program identifiers).

Modelling conventions:
  * `solana.PublicKey` values are represented by their base58 strings;
    the zero key renders as the base58 string of 32 zero bytes, which is
    also the system program id, exactly as in the Solana encoding.
  * Byte buffers are `List Nat`; `binary.LittleEndian.Uint64` becomes
    `leU64` on an 8-byte slice.
  * A Go parser `func(..., result *Transaction) error` becomes a function
    into `PResult`: `.ok t` for a nil return with final state `t`,
    `.err msg t` for an error return with final state `t` (the Go code
    mutates through a pointer, so the state survives an error), and
    `.panic` for a Go runtime panic (out-of-range slice or map index).
  * `float64` slippage arithmetic is modelled over `ℚ` with explicit
    IEEE-754 binary64 rounding (round to nearest, ties to even, 53
    significant bits), applied to both uint64-to-float64 conversions
    and to the division, so double-rounding effects are reproduced.
-/

namespace RaydiumParser

abbrev PublicKey := String

/-- Base58 rendering of the all-zero 32-byte key (`solana.PublicKey{}`). -/
def zeroPk : PublicKey := "11111111111111111111111111111111"

def solMint : PublicKey := "So11111111111111111111111111111111111111112"
def usdcMint : PublicKey := "EPjFWdd5AufqSSqeM2qN1xzybapC8G4wEGGkZwyTDt1v"
def usdtMint : PublicKey := "Es9vMFrzaCERmJfrF4H2FYD4KCoNkY11McCe8BenwNYB"

def RaydiumV4ProgramID : PublicKey := "675kPX9MHTjS2zt1qfr1NYHuzeLXfQM9H24wFSUt1Mp8"
def RaydiumV5ProgramID : PublicKey := "5quBtoiQqxF9Jv6KYKctB59NT3gtJD2Y65kdnB1Uev3h"
def RaydiumStakingProgramID : PublicKey := "EhhTKczWMGQt46ynNeRX1WfeagwwJd7ufHvCDjRxjo5Q"
def RaydiumLiquidityProgramID : PublicKey := "27haf8L6oxUeXrHrgEgsexjSY5hbVUWEmvv9Nyxg8vQv"
def RaydiumLaunchpadV1ProgramID : PublicKey := "LanMV9sAd7wArD4vJFi2qDdfnVhFxYSUg6eADduJ3uj"
def RaydiumCpSwapProgramID : PublicKey := "CPMMoo8L3F4NbTegBCKVNunggL7H1ZpdTHKxQB5qKP1C"
def RaydiumUnknownProgramID1 : PublicKey := "FoaFt2Dtz58RA6DPjbRb9t9z8sLJRChiGFTv21EfaseZ"
def RaydiumUnknownProgramID2 : PublicKey := "LanMV9sAd7wArD4vJFi2qDdfnVhFxYSUg6eADduJ3uj"
def TokenProgramID : PublicKey := "TokenkegQfeZyiNwAJbNbGKPFXCWuBvf9Ss623VQ5DA"
def Token2022ProgramID : PublicKey := "TokenzQdBNbLqP5VEhdkAS6EPFLC1PHnBqCXEpPxuEb"
def SystemProgramID : PublicKey := "11111111111111111111111111111111"

/-- Instruction discriminators of the Raydium V4/V5 family. -/
def INSTRUCTION_INITIALIZE_POOL : Nat := 0
def INSTRUCTION_SWAP : Nat := 1
def INSTRUCTION_DEPOSIT : Nat := 2
def INSTRUCTION_WITHDRAW : Nat := 3
def INSTRUCTION_MIGRATE : Nat := 4

/-- Launchpad-specific instruction discriminators. -/
def INSTRUCTION_CREATE_POOL : Nat := 9
def INSTRUCTION_INITIALIZE : Nat := 10
def INSTRUCTION_SWAP_BASE_IN : Nat := 11
def INSTRUCTION_SWAP_BASE_OUT : Nat := 12
def INSTRUCTION_BUY : Nat := 6
def INSTRUCTION_SELL : Nat := 7

/-- Token program instruction discriminators. -/
def TOKEN_INSTRUCTION_TRANSFER : Nat := 3
def TOKEN_INSTRUCTION_MINT_TO : Nat := 7

/-- One compiled instruction: program id index, account indices, payload. -/
structure CompiledInstruction where
  ProgramIDIndex : Nat
  Accounts : List Nat
  Data : List Nat
deriving DecidableEq, Repr

/-- The transaction message part the parsers read: the account key table. -/
structure Message where
  AccountKeys : List PublicKey
deriving DecidableEq, Repr

structure CreateInfo where
  TokenMint : PublicKey
  TokenDecimals : Nat
  TokenSymbol : String
  PoolAddress : PublicKey
  Creator : PublicKey
  Amount : Nat
  Timestamp : Int
deriving DecidableEq, Repr

structure TradeInfo where
  InstructionIndex : Nat
  TokenIn : PublicKey
  TokenOut : PublicKey
  AmountIn : Nat
  AmountOut : Nat
  Trader : PublicKey
  Pool : PublicKey
  TradeType : String
deriving DecidableEq, Repr

structure Migration where
  FromPool : PublicKey
  ToPool : PublicKey
  Token : PublicKey
  Amount : Nat
  Owner : PublicKey
  Timestamp : Int
deriving DecidableEq, Repr

structure SwapBuy where
  TokenIn : PublicKey
  TokenOut : PublicKey
  AmountIn : Nat
  AmountOut : Nat
  MinAmountOut : Nat
  Pool : PublicKey
  Buyer : PublicKey
  Slippage : ℚ
deriving DecidableEq, Repr

structure SwapSell where
  TokenIn : PublicKey
  TokenOut : PublicKey
  AmountIn : Nat
  AmountOut : Nat
  MinAmountOut : Nat
  Pool : PublicKey
  Seller : PublicKey
  Slippage : ℚ
deriving DecidableEq, Repr

/-- The aggregate result of decoding one transaction (`types.go`). -/
structure Transaction where
  Signature : String
  Slot : Nat
  Create : List CreateInfo
  Trade : List TradeInfo
  TradeBuys : List Nat
  TradeSells : List Nat
  Migrate : List Migration
  SwapBuys : List SwapBuy
  SwapSells : List SwapSell
deriving DecidableEq, Repr

/-- The result transaction as the pipeline initialises it: empty sequences. -/
def initTransaction (sig : String) (slot : Nat) : Transaction :=
  { Signature := sig, Slot := slot, Create := [], Trade := [], TradeBuys := [],
    TradeSells := [], Migrate := [], SwapBuys := [], SwapSells := [] }

def emptyTransaction : Transaction := initTransaction "" 0

/-- Outcome of one Go parser call: nil return, error return, or runtime panic.
The final state of the `*Transaction` is carried on `ok` and `err` because the
Go code mutates through a pointer. -/
inductive PResult where
  | ok (t : Transaction)
  | err (msg : String) (t : Transaction)
  | panic
deriving DecidableEq, Repr

/-- The transaction state visible after a parser call: panics abort decoding. -/
def resultState : PResult → Option Transaction
  | .ok t => some t
  | .err _ t => some t
  | .panic => none

/-- `l[a:b]` on a byte slice (valid at every guarded call site). -/
def slice (l : List Nat) (a b : Nat) : List Nat := (l.drop a).take (b - a)

/-- `binary.LittleEndian.Uint64` of the first 8 bytes. -/
def leU64 (l : List Nat) : Nat :=
  match l with
  | b0 :: b1 :: b2 :: b3 :: b4 :: b5 :: b6 :: b7 :: _ =>
    b0 + b1 * 256 + b2 * 256 ^ 2 + b3 * 256 ^ 3 + b4 * 256 ^ 4 +
      b5 * 256 ^ 5 + b6 * 256 ^ 6 + b7 * 256 ^ 7
  | _ => 0

/-- `isBaseCurrency`: the static base-currency set (SOL, USDC, USDT). -/
def isBaseCurrency (tokenMint : PublicKey) : Bool :=
  tokenMint == solMint || tokenMint == usdcMint || tokenMint == usdtMint

/-- Round a rational to the nearest integer, ties to even: the rounding
direction of IEEE-754 binary64 arithmetic. -/
def roundNearestInt (q : ℚ) : ℤ :=
  if q - ⌊q⌋ < 1 / 2 then ⌊q⌋
  else if 1 / 2 < q - ⌊q⌋ then ⌊q⌋ + 1
  else if ⌊q⌋ % 2 = 0 then ⌊q⌋ else ⌊q⌋ + 1

/-- IEEE-754 binary64 rounding of a nonnegative rational: round to nearest,
ties to even, at 53 significant bits. This agrees with binary64 arithmetic
on the whole normal range, which covers every value arising in
`calculateSlippage` from uint64 inputs (no overflow, underflow or
subnormals occur there). -/
def roundFloat (q : ℚ) : ℚ :=
  if q = 0 then 0
  else (roundNearestInt (q / 2 ^ (Int.log 2 q - 52)) : ℚ) * 2 ^ (Int.log 2 q - 52)

/-- `calculateSlippage`: the Go code computes
`float64(expectedAmount-actualAmount) / float64(expectedAmount)` in
binary64. Both uint64-to-float64 conversions and the division are modelled
by correct rounding (`roundFloat`), so rounding effects such as
`calculateSlippage 1 (2 ^ 53 + 1) = 1` are reproduced. -/
def calculateSlippage (actualAmount expectedAmount : Nat) : ℚ :=
  if expectedAmount = 0 then 0
  else if expectedAmount ≤ actualAmount then 0
  else
    roundFloat (roundFloat ((expectedAmount - actualAmount : Nat) : ℚ) /
      roundFloat (expectedAmount : ℚ))

structure TokenInfo where
  Mint : PublicKey
  Symbol : String
  Name : String
  Decimals : Nat
deriving DecidableEq, Repr

/-- `getKnownTokenInfo`: the local known-token map of the parser file. -/
def getKnownTokenInfo (tokenMint : PublicKey) : Option TokenInfo :=
  if tokenMint = solMint then some ⟨solMint, "SOL", "Solana", 9⟩
  else if tokenMint = usdcMint then some ⟨usdcMint, "USDC", "USD Coin", 6⟩
  else if tokenMint = usdtMint then some ⟨usdtMint, "USDT", "Tether USD", 6⟩
  else none

/-- The fields `ExtractInstructionData` (utils.go) puts in its result map;
`none` in a field models an absent key. -/
structure ExtractedInstructionData where
  discriminator : Option Nat
  dataLength : Option Nat
  potentialAmount : Option Nat
deriving DecidableEq, Repr

/-- `ExtractInstructionData` (utils.go). The amount read is guarded by
`len(data) >= 8` but reads `data[8]`, so a payload of exactly 8 bytes
makes the Go code index out of range: that case is `none` (panic). -/
def ExtractInstructionData (data : List Nat) : Option ExtractedInstructionData :=
  if data.length = 0 then some ⟨none, none, none⟩
  else
    if 8 ≤ data.length then
      match data.get? 1, data.get? 2, data.get? 3, data.get? 4,
            data.get? 5, data.get? 6, data.get? 7, data.get? 8 with
      | some b1, some b2, some b3, some b4, some b5, some b6, some b7, some b8 =>
        some ⟨some (data.getD 0 0), some data.length,
          some (b1 + b2 * 256 + b3 * 256 ^ 2 + b4 * 256 ^ 3 + b5 * 256 ^ 4 +
            b6 * 256 ^ 5 + b7 * 256 ^ 6 + b8 * 256 ^ 7)⟩
      | _, _, _, _, _, _, _, _ => none
    else some ⟨some (data.getD 0 0), some data.length, none⟩

/-- `parseCreatePoolInstruction`. The three account key reads are not bounds
checked in the source, so an out-of-range account index panics. -/
def parseCreatePoolInstruction (ci : CompiledInstruction) (msg : Message)
    (_index : Nat) (result : Transaction) : PResult :=
  if ci.Accounts.length < 8 then .err "insufficient accounts for pool creation" result
  else
    let tokenDecimals : Nat :=
      if 17 ≤ ci.Data.length then ci.Data.getD 9 0
      else if 10 ≤ ci.Data.length then ci.Data.getD 9 0
      else 9
    let initialLiquidity : Nat :=
      if 17 ≤ ci.Data.length then leU64 (slice ci.Data 9 17) else 0
    match msg.AccountKeys.get? (ci.Accounts.getD 0 0),
          msg.AccountKeys.get? (ci.Accounts.getD 1 0),
          msg.AccountKeys.get? (ci.Accounts.getD 2 0) with
    | some tokenMint, some poolAddress, some creator =>
      let tokenSymbol :=
        match getKnownTokenInfo tokenMint with
        | some info => info.Symbol
        | none => "UNKNOWN"
      .ok { result with
        Create := result.Create ++
        [{ TokenMint := tokenMint, TokenDecimals := tokenDecimals,
           TokenSymbol := tokenSymbol, PoolAddress := poolAddress,
           Creator := creator, Amount := initialLiquidity, Timestamp := 0 }] }
    | _, _, _ => .panic

/-- `parseSwapInstruction`. Account key reads for the first three instruction
accounts and for the overall first account are not bounds checked. -/
def parseSwapInstruction (ci : CompiledInstruction) (msg : Message)
    (index : Nat) (result : Transaction) : PResult :=
  if ci.Accounts.length < 6 then .err "insufficient accounts for swap" result
  else
    let amountIn : Nat := if 9 ≤ ci.Data.length then leU64 (slice ci.Data 1 9) else 0
    let minAmountOut : Nat := if 17 ≤ ci.Data.length then leU64 (slice ci.Data 9 17) else 0
    match msg.AccountKeys.get? (ci.Accounts.getD 0 0),
          msg.AccountKeys.get? (ci.Accounts.getD 1 0),
          msg.AccountKeys.get? (ci.Accounts.getD 2 0),
          msg.AccountKeys.get? 0 with
    | some tokenIn, some tokenOut, some pool, some trader =>
      let tradeInfo : TradeInfo :=
        { InstructionIndex := index, TokenIn := tokenIn, TokenOut := tokenOut,
          AmountIn := amountIn, AmountOut := 0, Trader := trader, Pool := pool,
          TradeType := "swap" }
      let result := { result with Trade := result.Trade ++ [tradeInfo] }
      if isBaseCurrency tokenIn then
        .ok { result with
          TradeBuys := result.TradeBuys ++ [index],
          SwapBuys := result.SwapBuys ++
            [{ TokenIn := tokenIn, TokenOut := tokenOut, AmountIn := amountIn,
               AmountOut := tradeInfo.AmountOut, MinAmountOut := minAmountOut,
               Pool := pool, Buyer := trader, Slippage := 0 }] }
      else
        .ok { result with
          TradeSells := result.TradeSells ++ [index],
          SwapSells := result.SwapSells ++
            [{ TokenIn := tokenIn, TokenOut := tokenOut, AmountIn := amountIn,
               AmountOut := tradeInfo.AmountOut, MinAmountOut := minAmountOut,
               Pool := pool, Seller := trader, Slippage := 0 }] }
    | _, _, _, _ => .panic

/-- `parseBuyInstructionStandard`. Token and pool reads are bounds checked
(zero key if out of range); the trader read `AccountKeys[0]` is not. -/
def parseBuyInstructionStandard (ci : CompiledInstruction) (msg : Message)
    (index : Nat) (result : Transaction) : PResult :=
  if ci.Accounts.length < 6 then .err "insufficient accounts for buy" result
  else
    let amountIn : Nat := if 17 ≤ ci.Data.length then leU64 (slice ci.Data 1 9) else 0
    let maxAmountIn : Nat := if 17 ≤ ci.Data.length then leU64 (slice ci.Data 9 17) else 0
    let tokenOut : PublicKey :=
      if 1 < ci.Accounts.length ∧ ci.Accounts.getD 1 0 < msg.AccountKeys.length then
        msg.AccountKeys.getD (ci.Accounts.getD 1 0) zeroPk
      else zeroPk
    let pool : PublicKey :=
      if 2 < ci.Accounts.length ∧ ci.Accounts.getD 2 0 < msg.AccountKeys.length then
        msg.AccountKeys.getD (ci.Accounts.getD 2 0) zeroPk
      else zeroPk
    match msg.AccountKeys.get? 0 with
    | some trader =>
      let tradeInfo : TradeInfo :=
        { InstructionIndex := index, TokenIn := solMint, TokenOut := tokenOut,
          AmountIn := amountIn, AmountOut := 0, Trader := trader, Pool := pool,
          TradeType := "buy" }
      let slippage : ℚ :=
        if 0 < maxAmountIn ∧ 0 < amountIn then calculateSlippage amountIn maxAmountIn
        else 0
      .ok { result with
        Trade := result.Trade ++ [tradeInfo],
        TradeBuys := result.TradeBuys ++ [index],
        SwapBuys := result.SwapBuys ++
          [{ TokenIn := tradeInfo.TokenIn, TokenOut := tradeInfo.TokenOut,
             AmountIn := amountIn, AmountOut := tradeInfo.AmountOut,
             MinAmountOut := 0, Pool := tradeInfo.Pool, Buyer := tradeInfo.Trader,
             Slippage := slippage }] }
    | none => .panic

/-- `parseSellInstructionStandard`. -/
def parseSellInstructionStandard (ci : CompiledInstruction) (msg : Message)
    (index : Nat) (result : Transaction) : PResult :=
  if ci.Accounts.length < 6 then .err "insufficient accounts for sell" result
  else
    let amountIn : Nat := if 17 ≤ ci.Data.length then leU64 (slice ci.Data 1 9) else 0
    let minAmountOut : Nat := if 17 ≤ ci.Data.length then leU64 (slice ci.Data 9 17) else 0
    let tokenIn : PublicKey :=
      if 0 < ci.Accounts.length ∧ ci.Accounts.getD 0 0 < msg.AccountKeys.length then
        msg.AccountKeys.getD (ci.Accounts.getD 0 0) zeroPk
      else zeroPk
    let pool : PublicKey :=
      if 2 < ci.Accounts.length ∧ ci.Accounts.getD 2 0 < msg.AccountKeys.length then
        msg.AccountKeys.getD (ci.Accounts.getD 2 0) zeroPk
      else zeroPk
    match msg.AccountKeys.get? 0 with
    | some trader =>
      let tradeInfo : TradeInfo :=
        { InstructionIndex := index, TokenIn := tokenIn, TokenOut := solMint,
          AmountIn := amountIn, AmountOut := 0, Trader := trader, Pool := pool,
          TradeType := "sell" }
      let slippage : ℚ :=
        if 0 < minAmountOut ∧ 0 < tradeInfo.AmountOut then
          calculateSlippage tradeInfo.AmountOut minAmountOut
        else 0
      .ok { result with
        Trade := result.Trade ++ [tradeInfo],
        TradeSells := result.TradeSells ++ [index],
        SwapSells := result.SwapSells ++
          [{ TokenIn := tradeInfo.TokenIn, TokenOut := tradeInfo.TokenOut,
             AmountIn := amountIn, AmountOut := tradeInfo.AmountOut,
             MinAmountOut := minAmountOut, Pool := tradeInfo.Pool,
             Seller := tradeInfo.Trader, Slippage := slippage }] }
    | none => .panic

/-- `parseDepositInstruction`: logs only. -/
def parseDepositInstruction (_ci : CompiledInstruction) (_msg : Message)
    (_index : Nat) (result : Transaction) : PResult := .ok result

/-- `parseWithdrawInstruction`: logs only. -/
def parseWithdrawInstruction (_ci : CompiledInstruction) (_msg : Message)
    (_index : Nat) (result : Transaction) : PResult := .ok result

/-- `parseMigrateInstruction`. The four account key reads are not bounds
checked in the source. -/
def parseMigrateInstruction (ci : CompiledInstruction) (msg : Message)
    (_index : Nat) (result : Transaction) : PResult :=
  if ci.Accounts.length < 4 then .err "insufficient accounts for migration" result
  else
    let amount : Nat := if 9 ≤ ci.Data.length then leU64 (slice ci.Data 1 9) else 0
    match msg.AccountKeys.get? (ci.Accounts.getD 0 0),
          msg.AccountKeys.get? (ci.Accounts.getD 1 0),
          msg.AccountKeys.get? (ci.Accounts.getD 2 0),
          msg.AccountKeys.get? (ci.Accounts.getD 3 0) with
    | some fromPool, some toPool, some token, some owner =>
      .ok { result with
        Migrate := result.Migrate ++
        [{ FromPool := fromPool, ToPool := toPool, Token := token,
           Amount := amount, Owner := owner, Timestamp := 0 }] }
    | _, _, _, _ => .panic

/-- `parseStakingInstruction`: logs only. -/
def parseStakingInstruction (_ci : CompiledInstruction) (_msg : Message)
    (_index : Nat) (result : Transaction) : PResult := .ok result

/-- `parseLiquidityInstruction`: logs only. -/
def parseLiquidityInstruction (_ci : CompiledInstruction) (_msg : Message)
    (_index : Nat) (result : Transaction) : PResult := .ok result

/-- `parseTokenTransferInstructionStandard`: logs only, never errors. -/
def parseTokenTransferInstructionStandard (_ci : CompiledInstruction)
    (_msg : Message) (_index : Nat) (result : Transaction) : PResult := .ok result

/-- `parseTokenMintInstructionStandard`: logs only, never errors. -/
def parseTokenMintInstructionStandard (_ci : CompiledInstruction)
    (_msg : Message) (_index : Nat) (result : Transaction) : PResult := .ok result

/-- `parseTokenInstruction`. -/
def parseTokenInstruction (ci : CompiledInstruction) (msg : Message)
    (index : Nat) (result : Transaction) : PResult :=
  if ci.Data.length = 0 then .ok result
  else
    let discriminator := ci.Data.getD 0 0
    if discriminator = TOKEN_INSTRUCTION_TRANSFER then
      parseTokenTransferInstructionStandard ci msg index result
    else if discriminator = TOKEN_INSTRUCTION_MINT_TO then
      parseTokenMintInstructionStandard ci msg index result
    else .ok result

/-- The account-scanning loop of `parseAsSwapInstruction` over the first ten
instruction accounts: skips the trader, the SOL mint and system or token
program accounts, then fills token-out and pool in order. -/
def scanInstructionAccounts (trader : PublicKey) (cands : List PublicKey)
    (tp : PublicKey × PublicKey) : PublicKey × PublicKey :=
  cands.foldl (fun tp account =>
    if account == trader then tp
    else if account == solMint then tp
    else if account == SystemProgramID || account == TokenProgramID then tp
    else if tp.1 == zeroPk then (account, tp.2)
    else if tp.2 == zeroPk then (tp.1, account)
    else tp) tp

/-- The fallback loop of `parseAsSwapInstruction` over message accounts 1..9:
skips system, token program, SOL and trader accounts, then fills token-out
and pool in order. -/
def scanMessageAccounts (trader : PublicKey) (cands : List PublicKey)
    (tp : PublicKey × PublicKey) : PublicKey × PublicKey :=
  cands.foldl (fun tp account =>
    if account == SystemProgramID || account == TokenProgramID ||
        account == solMint || account == trader then tp
    else if tp.1 == zeroPk then (account, tp.2)
    else if tp.2 == zeroPk then (tp.1, account)
    else tp) tp

/-- `parseAsSwapInstruction`: the best-effort trade extraction of the generic
Raydium decoder. Token-in is forced to the SOL mint; amounts are read at
offsets 8..16 and 16..24. -/
def parseAsSwapInstruction (ci : CompiledInstruction) (msg : Message)
    (index : Nat) (result : Transaction) : PResult :=
  let amountIn : Nat := if 16 ≤ ci.Data.length then leU64 (slice ci.Data 8 16) else 0
  let minAmountOut : Nat := if 24 ≤ ci.Data.length then leU64 (slice ci.Data 16 24) else 0
  let trader : PublicKey :=
    if 0 < msg.AccountKeys.length then msg.AccountKeys.getD 0 zeroPk else zeroPk
  let tokenIn : PublicKey := solMint
  let cands1 := (ci.Accounts.take 10).filterMap (fun a => msg.AccountKeys.get? a)
  let tp1 := scanInstructionAccounts trader cands1 (zeroPk, zeroPk)
  let tp2 :=
    if tp1.1 == zeroPk then
      scanMessageAccounts trader ((msg.AccountKeys.take 10).drop 1) tp1
    else tp1
  let tokenOut := tp2.1
  let pool := tp2.2
  let tradeInfo : TradeInfo :=
    { InstructionIndex := index, TokenIn := tokenIn, TokenOut := tokenOut,
      AmountIn := amountIn, AmountOut := 0, Trader := trader, Pool := pool,
      TradeType := "swap" }
  let result := { result with Trade := result.Trade ++ [tradeInfo] }
  if isBaseCurrency tokenIn then
    .ok { result with
      TradeBuys := result.TradeBuys ++ [index],
      SwapBuys := result.SwapBuys ++
        [{ TokenIn := tokenIn, TokenOut := tokenOut, AmountIn := amountIn,
           AmountOut := tradeInfo.AmountOut, MinAmountOut := minAmountOut,
           Pool := pool, Buyer := trader, Slippage := 0 }] }
  else
    .ok { result with
      TradeSells := result.TradeSells ++ [index],
      SwapSells := result.SwapSells ++
        [{ TokenIn := tokenIn, TokenOut := tokenOut, AmountIn := amountIn,
           AmountOut := tradeInfo.AmountOut, MinAmountOut := minAmountOut,
           Pool := pool, Seller := trader, Slippage := 0 }] }

/-- `parseAsCreateOrMigrateInstruction`. -/
def parseAsCreateOrMigrateInstruction (ci : CompiledInstruction) (msg : Message)
    (index : Nat) (result : Transaction) : PResult :=
  if 8 ≤ ci.Accounts.length then parseCreatePoolInstruction ci msg index result
  else if 4 ≤ ci.Accounts.length then parseMigrateInstruction ci msg index result
  else .ok result

/-- `parseGenericRaydiumInstruction`: shape-based fallback for unknown
complex discriminators of the Raydium family. -/
def parseGenericRaydiumInstruction (ci : CompiledInstruction) (msg : Message)
    (index : Nat) (result : Transaction) (_discriminator : Nat) : PResult :=
  if 6 ≤ ci.Accounts.length ∧ 16 ≤ ci.Data.length then
    parseAsSwapInstruction ci msg index result
  else if 4 ≤ ci.Accounts.length ∧ 8 ≤ ci.Data.length then
    parseAsCreateOrMigrateInstruction ci msg index result
  else .ok result

def COMPLEX_INITIALIZE : Nat := 0x175d3d5b8c84f4aa
def COMPLEX_SWAP : Nat := 0xf8c69e91e17587c8
def COMPLEX_BUY : Nat := 0x66063d1201daebea
def COMPLEX_SELL : Nat := 0xb712469c946da122
def COMPLEX_UNKNOWN_1 : Nat := 0x1a987cd39bde2795
def COMPLEX_UNKNOWN_2 : Nat := 0x0400000001010d09

/-- `parseComplexRaydiumInstruction`: dispatch on the 8-byte discriminator;
both the two known-unknown values and the default case go to the generic
fallback decoder. -/
def parseComplexRaydiumInstruction (ci : CompiledInstruction) (msg : Message)
    (index : Nat) (result : Transaction) (discriminator : Nat) : PResult :=
  if discriminator = COMPLEX_INITIALIZE then
    parseCreatePoolInstruction ci msg index result
  else if discriminator = COMPLEX_SWAP then
    parseSwapInstruction ci msg index result
  else if discriminator = COMPLEX_BUY then
    parseBuyInstructionStandard ci msg index result
  else if discriminator = COMPLEX_SELL then
    parseSellInstructionStandard ci msg index result
  else if discriminator = COMPLEX_UNKNOWN_1 ∨ discriminator = COMPLEX_UNKNOWN_2 then
    parseGenericRaydiumInstruction ci msg index result discriminator
  else
    parseGenericRaydiumInstruction ci msg index result discriminator

/-- `parseRaydiumInstruction`: the discriminator resolver of the V4/V5
family. A payload of 8 or more bytes whose leading 8 bytes are a nonzero
little-endian integer is routed to the complex dispatcher. -/
def parseRaydiumInstruction (ci : CompiledInstruction) (msg : Message)
    (index : Nat) (result : Transaction) : PResult :=
  if ci.Data.length = 0 then .err "instruction data is empty" result
  else
    let discriminator := ci.Data.getD 0 0
    if 8 ≤ ci.Data.length ∧ leU64 (slice ci.Data 0 8) ≠ 0 then
      parseComplexRaydiumInstruction ci msg index result (leU64 (slice ci.Data 0 8))
    else
      if discriminator = INSTRUCTION_INITIALIZE_POOL ∨ discriminator = INSTRUCTION_CREATE_POOL then
        parseCreatePoolInstruction ci msg index result
      else if discriminator = INSTRUCTION_SWAP ∨ discriminator = INSTRUCTION_SWAP_BASE_IN ∨
          discriminator = INSTRUCTION_SWAP_BASE_OUT then
        parseSwapInstruction ci msg index result
      else if discriminator = INSTRUCTION_BUY then
        parseBuyInstructionStandard ci msg index result
      else if discriminator = INSTRUCTION_SELL then
        parseSellInstructionStandard ci msg index result
      else if discriminator = INSTRUCTION_DEPOSIT then
        parseDepositInstruction ci msg index result
      else if discriminator = INSTRUCTION_WITHDRAW then
        parseWithdrawInstruction ci msg index result
      else if discriminator = INSTRUCTION_MIGRATE then
        parseMigrateInstruction ci msg index result
      else .ok result

/-- `parseGenericLaunchpadInstruction`: the launchpad fallback decoder.
When the trade-shaped branch reads a zero amount it falls through to the
swap/migrate branch. -/
def parseGenericLaunchpadInstruction (ci : CompiledInstruction) (msg : Message)
    (index : Nat) (result : Transaction) (_discriminator : Nat) : PResult :=
  let dataStart : Nat := if 8 ≤ ci.Data.length then 8 else 1
  let rest : PResult :=
    if 4 ≤ ci.Accounts.length ∧ dataStart + 8 ≤ ci.Data.length then
      parseSwapInstruction ci msg index result
    else .ok result
  if 8 ≤ ci.Accounts.length ∧ dataStart + 32 ≤ ci.Data.length then
    parseCreatePoolInstruction ci msg index result
  else if 6 ≤ ci.Accounts.length ∧ dataStart + 16 ≤ ci.Data.length then
    let amount : Nat :=
      if dataStart + 8 ≤ ci.Data.length then
        leU64 (slice ci.Data dataStart (dataStart + 8))
      else 0
    if 0 < amount then
      match parseBuyInstructionStandard ci msg index result with
      | .ok t => .ok t
      | .err _ t => parseSellInstructionStandard ci msg index t
      | .panic => .panic
    else rest
  else rest

def LAUNCHPAD_INITIALIZE : Nat := 0x175d3d5b8c84f4aa
def LAUNCHPAD_BUY : Nat := 0x66063d1201daebea
def LAUNCHPAD_SELL : Nat := 0xb712469c946da122
def LAUNCHPAD_SWAP : Nat := 0xf8c69e91e17587c8
def LAUNCHPAD_MIGRATE : Nat := 0x4a4c4e5d6f7e8f9a
def LAUNCHPAD_REAL_1 : Nat := 0x0663c1f6e7b8d9ea
def LAUNCHPAD_REAL_2 : Nat := 0x1b4c5d6e7f8a9b0c
def LAUNCHPAD_REAL_3 : Nat := 0x2e5f6a7b8c9d0e1f

/-- `parseComplexLaunchpadInstruction`. -/
def parseComplexLaunchpadInstruction (ci : CompiledInstruction) (msg : Message)
    (index : Nat) (result : Transaction) (discriminator : Nat) : PResult :=
  if discriminator = LAUNCHPAD_INITIALIZE then
    parseCreatePoolInstruction ci msg index result
  else if discriminator = LAUNCHPAD_BUY ∨ discriminator = LAUNCHPAD_REAL_2 then
    parseBuyInstructionStandard ci msg index result
  else if discriminator = LAUNCHPAD_SELL then
    parseSellInstructionStandard ci msg index result
  else if discriminator = LAUNCHPAD_SWAP then
    parseSwapInstruction ci msg index result
  else if discriminator = LAUNCHPAD_MIGRATE then
    parseMigrateInstruction ci msg index result
  else if discriminator = LAUNCHPAD_REAL_1 ∨ discriminator = LAUNCHPAD_REAL_3 then
    parseGenericLaunchpadInstruction ci msg index result discriminator
  else
    parseGenericLaunchpadInstruction ci msg index result discriminator

/-- `parseRaydiumLaunchpadInstructionStandard`: the launchpad family
resolver, with the same nonzero-leading-8-bytes complex routing as the
Raydium resolver. -/
def parseRaydiumLaunchpadInstructionStandard (ci : CompiledInstruction)
    (msg : Message) (index : Nat) (result : Transaction) : PResult :=
  if ci.Data.length = 0 then .err "launchpad instruction data is empty" result
  else
    let discriminator := ci.Data.getD 0 0
    if 8 ≤ ci.Data.length ∧ leU64 (slice ci.Data 0 8) ≠ 0 then
      parseComplexLaunchpadInstruction ci msg index result (leU64 (slice ci.Data 0 8))
    else
      if discriminator = INSTRUCTION_INITIALIZE ∨ discriminator = INSTRUCTION_INITIALIZE_POOL ∨
          discriminator = INSTRUCTION_CREATE_POOL then
        parseCreatePoolInstruction ci msg index result
      else if discriminator = INSTRUCTION_BUY then
        parseBuyInstructionStandard ci msg index result
      else if discriminator = INSTRUCTION_SELL then
        parseSellInstructionStandard ci msg index result
      else if discriminator = INSTRUCTION_SWAP ∨ discriminator = INSTRUCTION_SWAP_BASE_IN ∨
          discriminator = INSTRUCTION_SWAP_BASE_OUT then
        parseSwapInstruction ci msg index result
      else if discriminator = INSTRUCTION_MIGRATE then
        parseMigrateInstruction ci msg index result
      else
        parseGenericLaunchpadInstruction ci msg index result discriminator

/-- `parseInstruction`: program routing. Go's switch compares the cases in
order, so the launchpad program id (also listed as unknown program 2)
reaches the launchpad parser. -/
def parseInstruction (ci : CompiledInstruction) (msg : Message)
    (index : Nat) (result : Transaction) : PResult :=
  if msg.AccountKeys.length ≤ ci.ProgramIDIndex then
    .err "invalid program ID index" result
  else
    let programID := msg.AccountKeys.getD ci.ProgramIDIndex zeroPk
    if programID = RaydiumV4ProgramID ∨ programID = RaydiumV5ProgramID then
      parseRaydiumInstruction ci msg index result
    else if programID = RaydiumStakingProgramID then
      parseStakingInstruction ci msg index result
    else if programID = RaydiumLiquidityProgramID then
      parseLiquidityInstruction ci msg index result
    else if programID = RaydiumLaunchpadV1ProgramID then
      parseRaydiumLaunchpadInstructionStandard ci msg index result
    else if programID = RaydiumCpSwapProgramID then
      parseRaydiumInstruction ci msg index result
    else if programID = RaydiumUnknownProgramID1 ∨ programID = RaydiumUnknownProgramID2 then
      parseRaydiumInstruction ci msg index result
    else if programID = TokenProgramID then
      parseTokenInstruction ci msg index result
    else .ok result

/-- The instruction loop of `parseStandardTransaction`: instructions in
order, errors logged and ignored (the state survives), panics fatal. -/
def processInstructions (msg : Message) (instrs : List CompiledInstruction)
    (i : Nat) (t : Transaction) : Option Transaction :=
  match instrs with
  | [] => some t
  | ci :: rest =>
    match resultState (parseInstruction ci msg i t) with
    | some t' => processInstructions msg rest (i + 1) t'
    | none => none

end RaydiumParser

namespace RaydiumParser

/-- The possible state changes of one parsed instruction: unchanged, one
creation, one trade with a buy detail and buy index, one trade with a sell
detail and sell index, or one migration. -/
def StepDelta (index : Nat) (t t' : Transaction) : Prop :=
  t' = t
  ∨ (∃ c, t' = { t with Create := t.Create ++ [c] })
  ∨ (∃ tr b, t' = { t with
      Trade := t.Trade ++ [tr],
      TradeBuys := t.TradeBuys ++ [index],
      SwapBuys := t.SwapBuys ++ [b] })
  ∨ (∃ tr s, t' = { t with
      Trade := t.Trade ++ [tr],
      TradeSells := t.TradeSells ++ [index],
      SwapSells := t.SwapSells ++ [s] })
  ∨ (∃ m, t' = { t with Migrate := t.Migrate ++ [m] })

/-- A parser call behaves like one step: errors leave the state unchanged
and a nil return performs one `StepDelta`. -/
def StepSpec (index : Nat) (t : Transaction) : PResult → Prop
  | .ok t' => StepDelta index t t'
  | .err _ t' => t' = t
  | .panic => True

theorem stepSpec_parseCreatePoolInstruction (ci : CompiledInstruction)
    (msg : Message) (index : Nat) (t : Transaction) :
    StepSpec index t (parseCreatePoolInstruction ci msg index t) := by
  unfold parseCreatePoolInstruction
  try dsimp only
  repeat' split
  all_goals first
    | exact rfl
    | trivial
    | exact Or.inr (Or.inl ⟨_, rfl⟩)

theorem stepSpec_parseSwapInstruction (ci : CompiledInstruction)
    (msg : Message) (index : Nat) (t : Transaction) :
    StepSpec index t (parseSwapInstruction ci msg index t) := by
  unfold parseSwapInstruction
  try dsimp only
  repeat' split
  all_goals first
    | exact rfl
    | trivial
    | exact Or.inr (Or.inr (Or.inl ⟨_, _, rfl⟩))
    | exact Or.inr (Or.inr (Or.inr (Or.inl ⟨_, _, rfl⟩)))

theorem stepSpec_parseBuyInstructionStandard (ci : CompiledInstruction)
    (msg : Message) (index : Nat) (t : Transaction) :
    StepSpec index t (parseBuyInstructionStandard ci msg index t) := by
  unfold parseBuyInstructionStandard
  try dsimp only
  repeat' split
  all_goals first
    | exact rfl
    | trivial
    | exact Or.inr (Or.inr (Or.inl ⟨_, _, rfl⟩))

theorem stepSpec_parseSellInstructionStandard (ci : CompiledInstruction)
    (msg : Message) (index : Nat) (t : Transaction) :
    StepSpec index t (parseSellInstructionStandard ci msg index t) := by
  unfold parseSellInstructionStandard
  try dsimp only
  repeat' split
  all_goals first
    | exact rfl
    | trivial
    | exact Or.inr (Or.inr (Or.inr (Or.inl ⟨_, _, rfl⟩)))

theorem stepSpec_parseMigrateInstruction (ci : CompiledInstruction)
    (msg : Message) (index : Nat) (t : Transaction) :
    StepSpec index t (parseMigrateInstruction ci msg index t) := by
  unfold parseMigrateInstruction
  try dsimp only
  repeat' split
  all_goals first
    | exact rfl
    | trivial
    | exact Or.inr (Or.inr (Or.inr (Or.inr ⟨_, rfl⟩)))

theorem stepSpec_parseTokenInstruction (ci : CompiledInstruction)
    (msg : Message) (index : Nat) (t : Transaction) :
    StepSpec index t (parseTokenInstruction ci msg index t) := by
  unfold parseTokenInstruction parseTokenTransferInstructionStandard
    parseTokenMintInstructionStandard
  try dsimp only
  repeat' split
  all_goals exact Or.inl rfl

theorem stepSpec_parseAsSwapInstruction (ci : CompiledInstruction)
    (msg : Message) (index : Nat) (t : Transaction) :
    StepSpec index t (parseAsSwapInstruction ci msg index t) := by
  unfold parseAsSwapInstruction
  try dsimp only
  repeat' split
  all_goals first
    | exact Or.inr (Or.inr (Or.inl ⟨_, _, rfl⟩))
    | exact Or.inr (Or.inr (Or.inr (Or.inl ⟨_, _, rfl⟩)))

theorem stepSpec_parseAsCreateOrMigrateInstruction (ci : CompiledInstruction)
    (msg : Message) (index : Nat) (t : Transaction) :
    StepSpec index t (parseAsCreateOrMigrateInstruction ci msg index t) := by
  unfold parseAsCreateOrMigrateInstruction
  try dsimp only
  repeat' split
  all_goals first
    | exact Or.inl rfl
    | exact stepSpec_parseCreatePoolInstruction ci msg index t
    | exact stepSpec_parseMigrateInstruction ci msg index t

theorem stepSpec_parseGenericRaydiumInstruction (ci : CompiledInstruction)
    (msg : Message) (index : Nat) (t : Transaction) (d : Nat) :
    StepSpec index t (parseGenericRaydiumInstruction ci msg index t d) := by
  unfold parseGenericRaydiumInstruction
  try dsimp only
  repeat' split
  all_goals first
    | exact Or.inl rfl
    | exact stepSpec_parseAsSwapInstruction ci msg index t
    | exact stepSpec_parseAsCreateOrMigrateInstruction ci msg index t

theorem stepSpec_parseComplexRaydiumInstruction (ci : CompiledInstruction)
    (msg : Message) (index : Nat) (t : Transaction) (d : Nat) :
    StepSpec index t (parseComplexRaydiumInstruction ci msg index t d) := by
  unfold parseComplexRaydiumInstruction
  try dsimp only
  repeat' split
  all_goals first
    | exact stepSpec_parseCreatePoolInstruction ci msg index t
    | exact stepSpec_parseSwapInstruction ci msg index t
    | exact stepSpec_parseBuyInstructionStandard ci msg index t
    | exact stepSpec_parseSellInstructionStandard ci msg index t
    | exact stepSpec_parseGenericRaydiumInstruction ci msg index t d

theorem stepSpec_parseGenericLaunchpadInstruction (ci : CompiledInstruction)
    (msg : Message) (index : Nat) (t : Transaction) (d : Nat) :
    StepSpec index t (parseGenericLaunchpadInstruction ci msg index t d) := by
  unfold parseGenericLaunchpadInstruction
  try dsimp only
  repeat' split
  all_goals first
    | exact Or.inl rfl
    | trivial
    | exact stepSpec_parseCreatePoolInstruction ci msg index t
    | exact stepSpec_parseSwapInstruction ci msg index t
    | (rename_i t1 heq
       have hb := stepSpec_parseBuyInstructionStandard ci msg index t
       rw [heq] at hb
       exact hb)
    | (rename_i m t1 heq
       have hb := stepSpec_parseBuyInstructionStandard ci msg index t
       rw [heq] at hb
       have hb2 : t1 = t := hb
       rw [hb2]
       exact stepSpec_parseSellInstructionStandard ci msg index t)

theorem stepSpec_parseComplexLaunchpadInstruction (ci : CompiledInstruction)
    (msg : Message) (index : Nat) (t : Transaction) (d : Nat) :
    StepSpec index t (parseComplexLaunchpadInstruction ci msg index t d) := by
  unfold parseComplexLaunchpadInstruction
  try dsimp only
  repeat' split
  all_goals first
    | exact stepSpec_parseCreatePoolInstruction ci msg index t
    | exact stepSpec_parseBuyInstructionStandard ci msg index t
    | exact stepSpec_parseSellInstructionStandard ci msg index t
    | exact stepSpec_parseSwapInstruction ci msg index t
    | exact stepSpec_parseMigrateInstruction ci msg index t
    | exact stepSpec_parseGenericLaunchpadInstruction ci msg index t d

theorem stepSpec_parseRaydiumInstruction (ci : CompiledInstruction)
    (msg : Message) (index : Nat) (t : Transaction) :
    StepSpec index t (parseRaydiumInstruction ci msg index t) := by
  unfold parseRaydiumInstruction parseDepositInstruction parseWithdrawInstruction
  try dsimp only
  repeat' split
  all_goals first
    | exact rfl
    | exact Or.inl rfl
    | exact stepSpec_parseComplexRaydiumInstruction ci msg index t _
    | exact stepSpec_parseCreatePoolInstruction ci msg index t
    | exact stepSpec_parseSwapInstruction ci msg index t
    | exact stepSpec_parseBuyInstructionStandard ci msg index t
    | exact stepSpec_parseSellInstructionStandard ci msg index t
    | exact stepSpec_parseMigrateInstruction ci msg index t

theorem stepSpec_parseRaydiumLaunchpadInstructionStandard (ci : CompiledInstruction)
    (msg : Message) (index : Nat) (t : Transaction) :
    StepSpec index t (parseRaydiumLaunchpadInstructionStandard ci msg index t) := by
  unfold parseRaydiumLaunchpadInstructionStandard
  try dsimp only
  repeat' split
  all_goals first
    | exact rfl
    | exact stepSpec_parseComplexLaunchpadInstruction ci msg index t _
    | exact stepSpec_parseCreatePoolInstruction ci msg index t
    | exact stepSpec_parseBuyInstructionStandard ci msg index t
    | exact stepSpec_parseSellInstructionStandard ci msg index t
    | exact stepSpec_parseSwapInstruction ci msg index t
    | exact stepSpec_parseMigrateInstruction ci msg index t
    | exact stepSpec_parseGenericLaunchpadInstruction ci msg index t _

theorem stepSpec_parseInstruction (ci : CompiledInstruction)
    (msg : Message) (index : Nat) (t : Transaction) :
    StepSpec index t (parseInstruction ci msg index t) := by
  unfold parseInstruction parseStakingInstruction parseLiquidityInstruction
  try dsimp only
  repeat' split
  all_goals first
    | exact rfl
    | exact Or.inl rfl
    | exact stepSpec_parseRaydiumInstruction ci msg index t
    | exact stepSpec_parseRaydiumLaunchpadInstructionStandard ci msg index t
    | exact stepSpec_parseTokenInstruction ci msg index t

/-- From a step specification and a surviving state, the state change is a
`StepDelta`. -/
theorem stepSpec_some (index : Nat) (t : Transaction) (r : PResult)
    (hs : StepSpec index t r) (t' : Transaction)
    (h : resultState r = some t') : StepDelta index t t' := by
  cases r with
  | ok t1 =>
    simp only [resultState, Option.some.injEq] at h
    exact h ▸ hs
  | err m t1 =>
    simp only [resultState, Option.some.injEq] at h
    have h1 : t1 = t := hs
    rw [← h, h1]
    exact Or.inl rfl
  | panic => simp [resultState] at h

end RaydiumParser

namespace RaydiumParser

/-- A step delta preserves equality of index-sequence and detail lengths. -/
theorem stepDelta_lengths (index : Nat) (t t' : Transaction)
    (hd : StepDelta index t t')
    (h1 : t.TradeBuys.length = t.SwapBuys.length)
    (h2 : t.TradeSells.length = t.SwapSells.length) :
    t'.TradeBuys.length = t'.SwapBuys.length ∧
      t'.TradeSells.length = t'.SwapSells.length := by
  rcases hd with rfl | ⟨c, rfl⟩ | ⟨tr, b, rfl⟩ | ⟨tr, s, rfl⟩ | ⟨m, rfl⟩ <;>
    simp [h1, h2]

/-- The instruction loop preserves the index/detail length invariant. -/
theorem processInstructions_invariant (msg : Message) :
    ∀ (instrs : List CompiledInstruction) (i : Nat) (t t' : Transaction),
      t.TradeBuys.length = t.SwapBuys.length →
      t.TradeSells.length = t.SwapSells.length →
      processInstructions msg instrs i t = some t' →
      t'.TradeBuys.length = t'.SwapBuys.length ∧
        t'.TradeSells.length = t'.SwapSells.length := by
  intro instrs
  induction instrs with
  | nil =>
    intro i t t' h1 h2 h
    simp only [processInstructions, Option.some.injEq] at h
    rw [← h]
    exact ⟨h1, h2⟩
  | cons ci rest ih =>
    intro i t t' h1 h2 h
    simp only [processInstructions] at h
    split at h
    · rename_i t1 heq
      have hd := stepSpec_some i t _ (stepSpec_parseInstruction ci msg i t) t1 heq
      have hb := stepDelta_lengths i t t1 hd h1 h2
      exact ih (i + 1) t1 t' hb.1 hb.2 h
    · exact absurd h (by simp)

/-- C1: for every decoded transaction, after all instructions have been
processed, `TradeBuys` has exactly as many indices as there are `SwapBuys`
entries, and `TradeSells` as many as there are `SwapSells` entries. -/
theorem C1_trade_index_invariant (sig : String) (slot : Nat) (msg : Message)
    (instrs : List CompiledInstruction) (t' : Transaction)
    (h : processInstructions msg instrs 0 (initTransaction sig slot) = some t') :
    t'.TradeBuys.length = t'.SwapBuys.length ∧
      t'.TradeSells.length = t'.SwapSells.length :=
  processInstructions_invariant msg instrs 0 (initTransaction sig slot) t' rfl rfl h

/-- C2: one parsed instruction appends to at most one of the `Create`,
`Trade` and `Migrate` sequences (each grows by at most one entry), and it
never appends both a buy `SwapDetail` and a sell `SwapDetail`. -/
theorem C2_at_most_one_event (ci : CompiledInstruction) (msg : Message)
    (index : Nat) (t t' : Transaction)
    (h : resultState (parseInstruction ci msg index t) = some t') :
    (t'.Create.length ≤ t.Create.length + 1 ∧
     t'.Trade.length ≤ t.Trade.length + 1 ∧
     t'.Migrate.length ≤ t.Migrate.length + 1) ∧
    ((t'.Trade = t.Trade ∧ t'.Migrate = t.Migrate) ∨
     (t'.Create = t.Create ∧ t'.Migrate = t.Migrate) ∨
     (t'.Create = t.Create ∧ t'.Trade = t.Trade)) ∧
    (t'.SwapBuys = t.SwapBuys ∨ t'.SwapSells = t.SwapSells) := by
  have hd := stepSpec_some index t _ (stepSpec_parseInstruction ci msg index t) t' h
  rcases hd with rfl | ⟨c, rfl⟩ | ⟨tr, b, rfl⟩ | ⟨tr, s, rfl⟩ | ⟨m, rfl⟩ <;> simp

/-- Concrete account table used by the witnesses: a Raydium V4 program key
followed by six ordinary keys. -/
def msgW1 : Message :=
  { AccountKeys := [RaydiumV4ProgramID, "kA", "kB", "kC", "kD", "kE", "kF"] }

/-- Concrete simple swap instruction (discriminator 1, short payload). -/
def ciW1 : CompiledInstruction :=
  { ProgramIDIndex := 0, Accounts := [1, 2, 3, 4, 5, 6], Data := [1, 5, 0, 0, 0] }

/-- The decode of `ciW1` starting from signature "s", slot 1. -/
def tW1 : Transaction :=
  { Signature := "s", Slot := 1, Create := [],
    Trade := [{ InstructionIndex := 0, TokenIn := "kA", TokenOut := "kB",
                AmountIn := 0, AmountOut := 0, Trader := RaydiumV4ProgramID,
                Pool := "kC", TradeType := "swap" }],
    TradeBuys := [], TradeSells := [0], Migrate := [], SwapBuys := [],
    SwapSells := [{ TokenIn := "kA", TokenOut := "kB", AmountIn := 0,
                    AmountOut := 0, MinAmountOut := 0, Pool := "kC",
                    Seller := RaydiumV4ProgramID, Slippage := 0 }] }

/-- Witness for C1 at a concrete one-instruction transaction. -/
theorem C1_trade_index_invariant_witness :
    tW1.TradeBuys.length = tW1.SwapBuys.length ∧
      tW1.TradeSells.length = tW1.SwapSells.length :=
  C1_trade_index_invariant "s" 1 msgW1 [ciW1] tW1 (by decide)

/-- The decode of `ciW1` starting from the empty transaction. -/
def tW2 : Transaction :=
  { Signature := "", Slot := 0, Create := [],
    Trade := [{ InstructionIndex := 0, TokenIn := "kA", TokenOut := "kB",
                AmountIn := 0, AmountOut := 0, Trader := RaydiumV4ProgramID,
                Pool := "kC", TradeType := "swap" }],
    TradeBuys := [], TradeSells := [0], Migrate := [], SwapBuys := [],
    SwapSells := [{ TokenIn := "kA", TokenOut := "kB", AmountIn := 0,
                    AmountOut := 0, MinAmountOut := 0, Pool := "kC",
                    Seller := RaydiumV4ProgramID, Slippage := 0 }] }

/-- Witness for C2 at a concrete instruction. -/
theorem C2_at_most_one_event_witness :
    (tW2.Create.length ≤ emptyTransaction.Create.length + 1 ∧
     tW2.Trade.length ≤ emptyTransaction.Trade.length + 1 ∧
     tW2.Migrate.length ≤ emptyTransaction.Migrate.length + 1) ∧
    ((tW2.Trade = emptyTransaction.Trade ∧ tW2.Migrate = emptyTransaction.Migrate) ∨
     (tW2.Create = emptyTransaction.Create ∧ tW2.Migrate = emptyTransaction.Migrate) ∨
     (tW2.Create = emptyTransaction.Create ∧ tW2.Trade = emptyTransaction.Trade)) ∧
    (tW2.SwapBuys = emptyTransaction.SwapBuys ∨ tW2.SwapSells = emptyTransaction.SwapSells) :=
  C2_at_most_one_event ciW1 msgW1 0 emptyTransaction tW2 (by decide)

/-- Instruction whose eight accounts pass the creation guard but whose first
account index (9) is outside the three-entry account table. -/
def ciC5 : CompiledInstruction :=
  { ProgramIDIndex := 0, Accounts := [9, 1, 2, 3, 4, 5, 6, 7], Data := [] }

def msgC5 : Message := { AccountKeys := ["k0", "k1", "k2"] }

/-- C5: the spec says decoding never crashes, but the code can panic: with a
payload of exactly 8 bytes `ExtractInstructionData` reads `data[8]` out of
range, and `parseCreatePoolInstruction` indexes the account-key table with
an unchecked account index. Both panics are exhibited here. -/
theorem C5_decoder_can_panic :
    ExtractInstructionData [1, 1, 1, 1, 1, 1, 1, 1] = none ∧
    parseCreatePoolInstruction ciC5 msgC5 0 emptyTransaction = .panic ∧
    resultState (parseCreatePoolInstruction ciC5 msgC5 0 emptyTransaction) = none := by
  decide

/-- C6: with fewer accounts than the instruction kind requires, each decoder
returns its insufficient-accounts error and the result is unchanged — no
partially populated event is appended. -/
theorem C6_insufficient_accounts_fail_closed (ci : CompiledInstruction)
    (msg : Message) (index : Nat) (t : Transaction) :
    (ci.Accounts.length < 8 →
      parseCreatePoolInstruction ci msg index t =
        .err "insufficient accounts for pool creation" t) ∧
    (ci.Accounts.length < 6 →
      parseSwapInstruction ci msg index t = .err "insufficient accounts for swap" t ∧
      parseBuyInstructionStandard ci msg index t = .err "insufficient accounts for buy" t ∧
      parseSellInstructionStandard ci msg index t = .err "insufficient accounts for sell" t) ∧
    (ci.Accounts.length < 4 →
      parseMigrateInstruction ci msg index t =
        .err "insufficient accounts for migration" t) := by
  refine ⟨fun h => ?_, fun h => ⟨?_, ?_, ?_⟩, fun h => ?_⟩
  · unfold parseCreatePoolInstruction; rw [if_pos h]
  · unfold parseSwapInstruction; rw [if_pos h]
  · unfold parseBuyInstructionStandard; rw [if_pos h]
  · unfold parseSellInstructionStandard; rw [if_pos h]
  · unfold parseMigrateInstruction; rw [if_pos h]

/-- Rounding to nearest never goes below the floor. -/
theorem floor_le_roundNearestInt (q : ℚ) : ⌊q⌋ ≤ roundNearestInt q := by
  unfold roundNearestInt
  split_ifs <;> omega

/-- Rounding to nearest never goes above the ceiling. -/
theorem roundNearestInt_le_ceil (q : ℚ) : roundNearestInt q ≤ ⌈q⌉ := by
  unfold roundNearestInt
  have h1 : ⌊q⌋ ≤ ⌈q⌉ := Int.floor_le_ceil q
  split_ifs with ha hb hc
  · exact h1
  · rw [Int.add_one_le_ceil_iff]
    have h2 : (⌊q⌋ : ℚ) ≤ q := Int.floor_le q
    linarith
  · exact h1
  · rw [Int.add_one_le_ceil_iff]
    have h2 : (⌊q⌋ : ℚ) ≤ q := Int.floor_le q
    linarith

/-- Rounding to nearest fixes the integers. -/
theorem roundNearestInt_intCast (n : ℤ) : roundNearestInt (n : ℚ) = n := by
  unfold roundNearestInt
  norm_num

/-- Rounding to nearest (ties to even) is monotone. -/
theorem roundNearestInt_mono {x y : ℚ} (h : x ≤ y) :
    roundNearestInt x ≤ roundNearestInt y := by
  rcases lt_or_eq_of_le (Int.floor_mono h) with hf | hf
  · calc roundNearestInt x ≤ ⌈x⌉ := roundNearestInt_le_ceil x
      _ ≤ ⌊x⌋ + 1 := Int.ceil_le_floor_add_one x
      _ ≤ ⌊y⌋ := by omega
      _ ≤ roundNearestInt y := floor_le_roundNearestInt y
  · unfold roundNearestInt
    rw [← hf]
    split_ifs <;> first | omega | (exfalso; linarith)

/-- Binary64 rounding preserves nonnegativity. -/
theorem roundFloat_nonneg (q : ℚ) (h : 0 ≤ q) : 0 ≤ roundFloat q := by
  unfold roundFloat
  split_ifs with h0
  · exact le_refl 0
  · have hp : (0:ℚ) < 2 ^ (Int.log 2 q - 52) := zpow_pos (by norm_num) _
    have hq2 : 0 ≤ q / 2 ^ (Int.log 2 q - 52) := div_nonneg h hp.le
    have hr : (0:ℤ) ≤ roundNearestInt (q / 2 ^ (Int.log 2 q - 52)) :=
      le_trans (Int.floor_nonneg.mpr hq2) (floor_le_roundNearestInt _)
    exact mul_nonneg (by exact_mod_cast hr) hp.le

/-- Casting an integer power of two into the rationals. -/
theorem two_zpow_cast (n : ℕ) : ((2 ^ n : ℤ) : ℚ) = (2:ℚ) ^ (n : ℤ) := by
  push_cast
  rw [zpow_natCast]

/-- Powers of two are exactly representable: binary64 rounding fixes them. -/
theorem roundFloat_two_zpow (z : ℤ) : roundFloat ((2:ℚ) ^ z) = (2:ℚ) ^ z := by
  have hp : (0:ℚ) < (2:ℚ) ^ z := zpow_pos (by norm_num) z
  have hlog : Int.log 2 ((2:ℚ) ^ z) = z := by
    have h := @Int.log_zpow ℚ _ _ 2 (by norm_num) z
    simpa using h
  unfold roundFloat
  rw [if_neg hp.ne', hlog]
  have hdiv : (2:ℚ) ^ z / 2 ^ (z - 52) = ((2 ^ 52 : ℤ) : ℚ) := by
    rw [← zpow_sub₀ (by norm_num : (2:ℚ) ≠ 0), two_zpow_cast]
    congr 1
    push_cast
    ring
  rw [hdiv, roundNearestInt_intCast, two_zpow_cast,
    ← zpow_add₀ (by norm_num : (2:ℚ) ≠ 0)]
  congr 1
  push_cast
  ring

/-- Binary64 rounding fixes 1. -/
theorem roundFloat_one : roundFloat 1 = 1 := by
  have h := roundFloat_two_zpow 0
  simpa using h

/-- Binary64 rounding is monotone on the positive rationals. -/
theorem roundFloat_mono {x y : ℚ} (hx : 0 < x) (hxy : x ≤ y) :
    roundFloat x ≤ roundFloat y := by
  have hy : 0 < y := lt_of_lt_of_le hx hxy
  have hL : Int.log 2 x ≤ Int.log 2 y := Int.log_mono_right hx hxy
  unfold roundFloat
  rw [if_neg hx.ne', if_neg hy.ne']
  rcases eq_or_lt_of_le hL with hEq | hLt
  · rw [hEq]
    have hp : (0:ℚ) < 2 ^ (Int.log 2 y - 52) := zpow_pos (by norm_num) _
    have hdiv : x / 2 ^ (Int.log 2 y - 52) ≤ y / 2 ^ (Int.log 2 y - 52) := by gcongr
    exact mul_le_mul_of_nonneg_right
      (by exact_mod_cast roundNearestInt_mono hdiv) hp.le
  · have hpx : (0:ℚ) < 2 ^ (Int.log 2 x - 52) := zpow_pos (by norm_num) _
    have hpy : (0:ℚ) < 2 ^ (Int.log 2 y - 52) := zpow_pos (by norm_num) _
    have hxlt : x < (2:ℚ) ^ (Int.log 2 x + 1) := Int.lt_zpow_succ_log_self (by norm_num) x
    have hxd : x / 2 ^ (Int.log 2 x - 52) ≤ ((2 ^ 53 : ℤ) : ℚ) := by
      rw [div_le_iff₀ hpx, two_zpow_cast, ← zpow_add₀ (by norm_num : (2:ℚ) ≠ 0)]
      have he : (((53 : ℕ) : ℤ)) + (Int.log 2 x - 52) = Int.log 2 x + 1 := by
        push_cast
        ring
      rw [he]
      exact hxlt.le
    have hrx : roundNearestInt (x / 2 ^ (Int.log 2 x - 52)) ≤ 2 ^ 53 :=
      le_trans (roundNearestInt_le_ceil _) (Int.ceil_le.mpr hxd)
    have hyge : (2:ℚ) ^ Int.log 2 y ≤ y := Int.zpow_log_le_self (by norm_num) hy
    have hyd : ((2 ^ 52 : ℤ) : ℚ) ≤ y / 2 ^ (Int.log 2 y - 52) := by
      rw [le_div_iff₀ hpy, two_zpow_cast, ← zpow_add₀ (by norm_num : (2:ℚ) ≠ 0)]
      have he : (((52 : ℕ) : ℤ)) + (Int.log 2 y - 52) = Int.log 2 y := by
        push_cast
        ring
      rw [he]
      exact hyge
    have hry : (2 ^ 52 : ℤ) ≤ roundNearestInt (y / 2 ^ (Int.log 2 y - 52)) :=
      le_trans (Int.le_floor.mpr hyd) (floor_le_roundNearestInt _)
    calc (roundNearestInt (x / 2 ^ (Int.log 2 x - 52)) : ℚ) * 2 ^ (Int.log 2 x - 52)
        ≤ ((2 ^ 53 : ℤ) : ℚ) * 2 ^ (Int.log 2 x - 52) :=
          mul_le_mul_of_nonneg_right (by exact_mod_cast hrx) hpx.le
      _ = (2:ℚ) ^ (Int.log 2 x + 1) := by
          rw [two_zpow_cast, ← zpow_add₀ (by norm_num : (2:ℚ) ≠ 0)]
          congr 1
          push_cast
          ring
      _ ≤ (2:ℚ) ^ (Int.log 2 y) := by
          apply zpow_le_zpow_right₀ (by norm_num)
          omega
      _ = ((2 ^ 52 : ℤ) : ℚ) * 2 ^ (Int.log 2 y - 52) := by
          rw [two_zpow_cast, ← zpow_add₀ (by norm_num : (2:ℚ) ≠ 0)]
          congr 1
          push_cast
          ring
      _ ≤ (roundNearestInt (y / 2 ^ (Int.log 2 y - 52)) : ℚ) * 2 ^ (Int.log 2 y - 52) :=
          mul_le_mul_of_nonneg_right (by exact_mod_cast hry) hpy.le

/-- Natural-number powers of two are fixed by binary64 rounding. -/
theorem roundFloat_two_pow (n : ℕ) : roundFloat ((2:ℚ) ^ n) = (2:ℚ) ^ n := by
  have h := roundFloat_two_zpow (n : ℤ)
  rwa [zpow_natCast] at h

/-- The value 2^53 + 1 lies exactly between two binary64 doubles and the
even tie 2^53 wins: the first rounding that loses information. -/
theorem roundFloat_big_tie : roundFloat ((2:ℚ) ^ (53:ℕ) + 1) = (2:ℚ) ^ (53:ℕ) := by
  have hq : (0:ℚ) < 2 ^ (53:ℕ) + 1 := by positivity
  have hlog : Int.log 2 ((2:ℚ) ^ (53:ℕ) + 1) = 53 := by
    apply le_antisymm
    · have h54 : ((2:ℚ) ^ (53:ℕ) + 1) < (2:ℚ) ^ ((54:ℕ):ℤ) := by
        rw [zpow_natCast]
        norm_num
      have h2 := (@Int.lt_zpow_iff_log_lt ℚ _ _ 2 (by norm_num) ((54:ℕ):ℤ)
        ((2:ℚ) ^ (53:ℕ) + 1) hq).mp h54
      omega
    · have h53 : ((2:ℚ) ^ ((53:ℕ):ℤ)) ≤ (2:ℚ) ^ (53:ℕ) + 1 := by
        rw [zpow_natCast]
        norm_num
      have h2 := (@Int.zpow_le_iff_le_log ℚ _ _ 2 (by norm_num) ((53:ℕ):ℤ)
        ((2:ℚ) ^ (53:ℕ) + 1) hq).mp h53
      omega
  unfold roundFloat
  rw [if_neg hq.ne', hlog]
  rw [show ((53:ℤ) - 52 : ℤ) = 1 from by norm_num]
  have hdiv : ((2:ℚ) ^ (53:ℕ) + 1) / 2 ^ ((1:ℤ)) = ((2 ^ 52 : ℤ) : ℚ) + 1 / 2 := by
    rw [zpow_one]
    push_cast
    ring
  rw [hdiv]
  have hrni : roundNearestInt (((2 ^ 52 : ℤ) : ℚ) + 1 / 2) = 2 ^ 52 := by
    unfold roundNearestInt
    rw [Int.floor_int_add]
    norm_num
  rw [hrni, zpow_one]
  push_cast
  ring

/-- C7 counterexample: at actual 0 and expected 1 the computed slippage is
exactly 1, outside the claimed half-open interval `[0, 1)`; and the bound
fails even for positive actual amounts, because binary64 rounding collapses
2^53 + 1 onto 2^53, so actual 1, expected 2^53 + 1 also yields exactly 1. -/
theorem C7_counterexample :
    calculateSlippage 0 1 = 1 ∧ 1 ≤ calculateSlippage 0 1 ∧
    calculateSlippage 1 (2 ^ 53 + 1) = 1 := by
  have hc1 : calculateSlippage 0 1 = 1 := by
    unfold calculateSlippage
    norm_num [roundFloat_one]
  have hc2 : calculateSlippage 1 (2 ^ 53 + 1) = 1 := by
    unfold calculateSlippage
    rw [if_neg (by norm_num), if_neg (by norm_num)]
    have hs : (2 ^ 53 + 1 - 1 : ℕ) = 2 ^ 53 := by norm_num
    have hcast1 : ((2 ^ 53 : ℕ) : ℚ) = (2:ℚ) ^ (53:ℕ) := by
      push_cast
      ring
    have hcast2 : ((2 ^ 53 + 1 : ℕ) : ℚ) = (2:ℚ) ^ (53:ℕ) + 1 := by
      push_cast
      ring
    rw [hs, hcast1, hcast2, roundFloat_two_pow, roundFloat_big_tie,
      div_self (by positivity)]
    exact roundFloat_one
  exact ⟨hc1, hc1.ge, hc2⟩

/-- C7 amended: for unsigned 64-bit inputs the slippage is 0 when actual is
at least expected or expected is 0; otherwise it is the correctly-rounded
binary64 value of `(expected - actual) / expected`; and in all cases it
lies in the closed interval `[0, 1]` (the value 1 is attained, both at
actual 0 and, through rounding, at positive actual amounts). -/
theorem C7_amended_slippage_range (actual expected : Nat)
    (ha : actual < 2 ^ 64) (he : expected < 2 ^ 64) :
    ((expected = 0 ∨ expected ≤ actual) → calculateSlippage actual expected = 0) ∧
    (expected ≠ 0 → ¬ expected ≤ actual →
      calculateSlippage actual expected =
        roundFloat (roundFloat ((expected - actual : Nat) : ℚ) /
          roundFloat (expected : ℚ))) ∧
    0 ≤ calculateSlippage actual expected ∧
    calculateSlippage actual expected ≤ 1 := by
  refine ⟨?_, ?_, ?_, ?_⟩
  · intro h
    unfold calculateSlippage
    split_ifs with h1 h2
    · rfl
    · rfl
    · rcases h with h | h
      · exact absurd h h1
      · exact absurd h h2
  · intro h1 h2
    unfold calculateSlippage
    rw [if_neg h1, if_neg h2]
  · unfold calculateSlippage
    split_ifs with h1 h2
    · exact le_refl 0
    · exact le_refl 0
    · exact roundFloat_nonneg _ (div_nonneg (roundFloat_nonneg _ (by positivity))
        (roundFloat_nonneg _ (by positivity)))
  · unfold calculateSlippage
    split_ifs with h1 h2
    · norm_num
    · norm_num
    · push_neg at h2
      have hd1 : (1:ℚ) ≤ ((expected - actual : Nat) : ℚ) := by
        have hn : 1 ≤ expected - actual := by omega
        exact_mod_cast hn
      have he1 : (1:ℚ) ≤ (expected : ℚ) := by
        have hn : 1 ≤ expected := by omega
        exact_mod_cast hn
      have hde : ((expected - actual : Nat) : ℚ) ≤ (expected : ℚ) := by
        exact_mod_cast Nat.sub_le expected actual
      have hX : (1:ℚ) ≤ roundFloat ((expected - actual : Nat) : ℚ) := by
        rw [← roundFloat_one]
        exact roundFloat_mono one_pos hd1
      have hY : (1:ℚ) ≤ roundFloat (expected : ℚ) := by
        rw [← roundFloat_one]
        exact roundFloat_mono one_pos he1
      have hXY : roundFloat ((expected - actual : Nat) : ℚ) ≤ roundFloat (expected : ℚ) :=
        roundFloat_mono (by linarith) hde
      have hq1 : roundFloat ((expected - actual : Nat) : ℚ) / roundFloat (expected : ℚ) ≤ 1 :=
        (div_le_one (by linarith)).mpr hXY
      have hq0 : 0 < roundFloat ((expected - actual : Nat) : ℚ) / roundFloat (expected : ℚ) :=
        div_pos (by linarith) (by linarith)
      calc roundFloat (roundFloat ((expected - actual : Nat) : ℚ) / roundFloat (expected : ℚ))
          ≤ roundFloat 1 := roundFloat_mono hq0 hq1
        _ = 1 := roundFloat_one

/-- An eight-byte-or-longer buffer decomposes into its first eight bytes. -/
theorem exists_eight_bytes (l : List Nat) (h : 8 ≤ l.length) :
    ∃ b0 b1 b2 b3 b4 b5 b6 b7 rest,
      l = b0 :: b1 :: b2 :: b3 :: b4 :: b5 :: b6 :: b7 :: rest :=
  match l, h with
  | b0 :: b1 :: b2 :: b3 :: b4 :: b5 :: b6 :: b7 :: rest, _ =>
    ⟨b0, b1, b2, b3, b4, b5, b6, b7, rest, rfl⟩
  | [], h => absurd h (by simp)
  | [_], h => absurd h (by simp)
  | [_, _], h => absurd h (by simp)
  | [_, _, _], h => absurd h (by simp)
  | [_, _, _, _], h => absurd h (by simp)
  | [_, _, _, _, _], h => absurd h (by simp)
  | [_, _, _, _, _, _], h => absurd h (by simp)
  | [_, _, _, _, _, _, _], h => absurd h (by simp)

/-- `leU64` of the leading eight-byte slice, written out. -/
theorem leU64_eight (b0 b1 b2 b3 b4 b5 b6 b7 : Nat) (rest : List Nat) :
    leU64 (slice (b0 :: b1 :: b2 :: b3 :: b4 :: b5 :: b6 :: b7 :: rest) 0 8) =
      b0 + b1 * 256 + b2 * 256 ^ 2 + b3 * 256 ^ 3 + b4 * 256 ^ 4 +
        b5 * 256 ^ 5 + b6 * 256 ^ 6 + b7 * 256 ^ 7 := rfl

/-- If the leading eight bytes decode to zero, the first byte is zero. -/
theorem leU64_zero_first_byte (l : List Nat) (h : 8 ≤ l.length)
    (hz : leU64 (slice l 0 8) = 0) : l.getD 0 0 = 0 := by
  obtain ⟨b0, b1, b2, b3, b4, b5, b6, b7, rest, rfl⟩ := exists_eight_bytes l h
  rw [leU64_eight] at hz
  simp only [List.getD_cons_zero]
  omega

/-- C3 amended: for a payload of length at least 8 the resolver routes to the
complex dispatcher whenever the little-endian value of the first 8 bytes is
nonzero — table membership decides only which complex decoder runs, and a
value outside the table goes to the generic fallback decoder, never back to
the simple single-byte table; the simple table is consulted only when the
first 8 bytes are all zero, in which case the first byte is 0 and the create
decoder runs. -/
theorem C3_amended_complex_routing (ci : CompiledInstruction) (msg : Message)
    (index : Nat) (t : Transaction) (h8 : 8 ≤ ci.Data.length) :
    (leU64 (slice ci.Data 0 8) ≠ 0 →
      parseRaydiumInstruction ci msg index t =
        parseComplexRaydiumInstruction ci msg index t (leU64 (slice ci.Data 0 8))) ∧
    (leU64 (slice ci.Data 0 8) = 0 →
      parseRaydiumInstruction ci msg index t =
        parseCreatePoolInstruction ci msg index t) ∧
    (∀ d, d ≠ COMPLEX_INITIALIZE → d ≠ COMPLEX_SWAP → d ≠ COMPLEX_BUY →
      d ≠ COMPLEX_SELL →
      parseComplexRaydiumInstruction ci msg index t d =
        parseGenericRaydiumInstruction ci msg index t d) := by
  have hne : ¬ ci.Data.length = 0 := by omega
  refine ⟨fun hz => ?_, fun hz => ?_, fun d h1 h2 h3 h4 => ?_⟩
  · unfold parseRaydiumInstruction
    try dsimp only
    rw [if_neg hne, if_pos ⟨h8, hz⟩]
  · unfold parseRaydiumInstruction
    try dsimp only
    rw [if_neg hne, if_neg (by simp [hz]), leU64_zero_first_byte ci.Data h8 hz,
      if_pos (show (0 : Nat) = INSTRUCTION_INITIALIZE_POOL ∨
        (0 : Nat) = INSTRUCTION_CREATE_POOL from Or.inl rfl)]
  · unfold parseComplexRaydiumInstruction
    rw [if_neg h1, if_neg h2, if_neg h3, if_neg h4, ite_self]

/-- Shared six-key account table for the concrete runs. -/
def msgK6 : Message := { AccountKeys := ["k0", "k1", "k2", "k3", "k4", "k5"] }

/-- A payload whose first byte is the simple swap discriminator 1 but whose
leading 8 bytes are a nonzero little-endian value (1). -/
def dataC3 : List Nat := [1, 0, 0, 0, 0, 0, 0, 0, 7, 0, 0, 0, 0, 0, 0, 0, 0]

def ciC3 : CompiledInstruction :=
  { ProgramIDIndex := 0, Accounts := [0, 1, 2, 3, 4, 5], Data := dataC3 }

/-- What the resolver actually produces on `ciC3`: the generic heuristic
swap, token-in forced to SOL, amount read at offset 8. -/
def tC3gen : Transaction :=
  { Signature := "", Slot := 0, Create := [],
    Trade := [⟨0, solMint, "k1", 7, 0, "k0", "k2", "swap"⟩],
    TradeBuys := [0], TradeSells := [], Migrate := [],
    SwapBuys := [⟨solMint, "k1", 7, 0, 0, "k2", "k0", 0⟩], SwapSells := [] }

/-- What the simple swap decoder would produce on the same instruction. -/
def tC3simple : Transaction :=
  { Signature := "", Slot := 0, Create := [],
    Trade := [⟨0, "k0", "k1", 504403158265495552, 0, "k0", "k2", "swap"⟩],
    TradeBuys := [], TradeSells := [0], Migrate := [],
    SwapBuys := [], SwapSells := [⟨"k0", "k1", 504403158265495552, 0, 0, "k2", "k0", 0⟩] }

/-- C3 counterexample: `dataC3` starts with the known simple discriminator 1
and is 17 bytes long, and its leading 8-byte value 1 is in no complex table,
yet the resolver does not decode it with the simple swap decoder: the full
resolution and the simple decoder give different results. -/
theorem C3_counterexample :
    dataC3.getD 0 0 = INSTRUCTION_SWAP ∧ 8 ≤ dataC3.length ∧
    leU64 (slice dataC3 0 8) = 1 ∧
    (1 ≠ COMPLEX_INITIALIZE ∧ 1 ≠ COMPLEX_SWAP ∧ 1 ≠ COMPLEX_BUY ∧
      1 ≠ COMPLEX_SELL ∧ 1 ≠ COMPLEX_UNKNOWN_1 ∧ 1 ≠ COMPLEX_UNKNOWN_2) ∧
    parseRaydiumInstruction ciC3 msgK6 0 emptyTransaction = .ok tC3gen ∧
    parseSwapInstruction ciC3 msgK6 0 emptyTransaction = .ok tC3simple ∧
    tC3gen ≠ tC3simple := by decide

/-- Witness for the amended C3 routing at the concrete instruction. -/
theorem C3_amended_complex_routing_witness :
    (leU64 (slice ciC3.Data 0 8) ≠ 0 →
      parseRaydiumInstruction ciC3 msgK6 0 emptyTransaction =
        parseComplexRaydiumInstruction ciC3 msgK6 0 emptyTransaction
          (leU64 (slice ciC3.Data 0 8))) ∧
    (leU64 (slice ciC3.Data 0 8) = 0 →
      parseRaydiumInstruction ciC3 msgK6 0 emptyTransaction =
        parseCreatePoolInstruction ciC3 msgK6 0 emptyTransaction) ∧
    (∀ d, d ≠ COMPLEX_INITIALIZE → d ≠ COMPLEX_SWAP → d ≠ COMPLEX_BUY →
      d ≠ COMPLEX_SELL →
      parseComplexRaydiumInstruction ciC3 msgK6 0 emptyTransaction d =
        parseGenericRaydiumInstruction ciC3 msgK6 0 emptyTransaction d) :=
  C3_amended_complex_routing ciC3 msgK6 0 emptyTransaction (by decide)

/-- The 17-byte payload of the C4 scenario: discriminator 1, then
1000000000 and 950000000 little-endian. -/
def dataC4 : List Nat :=
  [1, 0, 202, 154, 59, 0, 0, 0, 0, 128, 217, 159, 56, 0, 0, 0, 0]

/-- Account table for the C4 scenario: the input-token account is the
native base currency (wrapped SOL). -/
def msgC4 : Message :=
  { AccountKeys := [solMint, "tokenX", "poolY", "a3", "a4", "a5"] }

def ciC4 : CompiledInstruction :=
  { ProgramIDIndex := 0, Accounts := [0, 1, 2, 3, 4, 5], Data := dataC4 }

/-- The actual decode of the C4 scenario instruction. -/
def tC4 : Transaction :=
  { Signature := "", Slot := 0, Create := [],
    Trade := [⟨0, solMint, "tokenX", 243200000000, 0, solMint, "poolY", "swap"⟩],
    TradeBuys := [0], TradeSells := [], Migrate := [],
    SwapBuys := [⟨solMint, "tokenX", 243200000000, 0, 0, "poolY", solMint, 0⟩],
    SwapSells := [] }

/-- C4 counterexample: the scenario instruction (data
`[1][1000000000 LE][950000000 LE]`, input token = SOL) is not decoded as the
claim says: the resolver routes it through the complex path to the generic
heuristic, so the single trade has kind "swap" (not "buy") with amount-in
243200000000 (not 1000000000), and the single buy detail has
minimum-amount-out 0 (not 950000000). -/
theorem C4_counterexample :
    parseRaydiumInstruction ciC4 msgC4 0 emptyTransaction = .ok tC4 ∧
    tC4.Trade.map TradeInfo.TradeType = ["swap"] ∧
    tC4.Trade.map TradeInfo.AmountIn = [243200000000] ∧
    tC4.SwapBuys.map SwapBuy.MinAmountOut = [0] ∧
    "swap" ≠ "buy" ∧ (243200000000 : Nat) ≠ 1000000000 ∧
    (0 : Nat) ≠ 950000000 := by decide

/-- C4 amended: on the scenario instruction with data
`[1][1000000000 LE][950000000 LE]` and the SOL mint as first account, the
decoder yields exactly one trade event of kind "swap" with AmountIn
243200000000 (the little-endian value at offsets 8..16) and exactly one buy
SwapDetail with MinAmountOut 0; the 950000000 bound is not recovered. -/
theorem C4_amended_swap_scenario :
    parseRaydiumInstruction ciC4 msgC4 0 emptyTransaction = .ok tC4 ∧
    tC4.Trade.length = 1 ∧ tC4.SwapBuys.length = 1 ∧
    tC4.TradeBuys = [0] ∧ tC4.TradeSells = [] ∧
    tC4.Trade.map TradeInfo.TradeType = ["swap"] ∧
    tC4.Trade.map TradeInfo.AmountIn = [243200000000] ∧
    tC4.SwapBuys.map SwapBuy.MinAmountOut = [0] ∧
    tC4.SwapSells = [] ∧ tC4.Create = [] ∧ tC4.Migrate = [] := by decide

/-- 24-byte payload whose amount field at offsets 8..16 is zero but whose
bytes 1..9 decode to the nonzero value 1. -/
def dataC8 : List Nat :=
  [0, 1, 0, 0, 0, 0, 0, 0, 0, 0, 0, 0, 0, 0, 0, 0, 0, 0, 0, 0, 0, 0, 0, 0]

def ciC8 : CompiledInstruction :=
  { ProgramIDIndex := 0, Accounts := [0, 1, 2, 3, 4, 5], Data := dataC8 }

/-- The decode of the zero-amount trade-shaped instruction: a swap with a
sell detail is emitted, not `Unclassified`. -/
def tC8 : Transaction :=
  { Signature := "", Slot := 0, Create := [],
    Trade := [⟨0, "k0", "k1", 1, 0, "k0", "k2", "swap"⟩],
    TradeBuys := [], TradeSells := [0], Migrate := [],
    SwapBuys := [], SwapSells := [⟨"k0", "k1", 1, 0, 0, "k2", "k0", 0⟩] }

/-- C8 counterexample: a launchpad fallback instruction that meets the trade
shape (6 accounts, 24 = 8+16 data bytes) and whose decoded amount at the
8-byte data start is zero still emits a trade and a sell SwapDetail via the
swap branch — it is not treated as Unclassified. -/
theorem C8_counterexample :
    6 ≤ ciC8.Accounts.length ∧ 8 + 16 ≤ ciC8.Data.length ∧
    leU64 (slice ciC8.Data 8 16) = 0 ∧
    parseGenericLaunchpadInstruction ciC8 msgK6 0 emptyTransaction 7 = .ok tC8 ∧
    tC8.Trade.length = 1 ∧ tC8.SwapSells.length = 1 := by decide

/-- C8 amended: in the launchpad fallback decoder, a trade-shaped
instruction (at least 6 accounts, data length at least data-start + 16,
not creation-shaped) whose decoded amount is zero is not left Unclassified:
it falls through to the swap/migrate branch, whose guard is implied by the
trade shape, and is parsed by the swap decoder (which emits a trade and a
SwapDetail with amounts read at offsets 1..17). The Raydium generic decoder
performs no zero-amount check at all: every trade-shaped instruction goes
straight to the heuristic swap extraction. -/
theorem C8_amended_zero_amount_falls_to_swap (ci : CompiledInstruction)
    (msg : Message) (index : Nat) (t : Transaction) (d : Nat)
    (hacc : 6 ≤ ci.Accounts.length)
    (hdata : 8 + 16 ≤ ci.Data.length)
    (hnotcreate : ci.Accounts.length < 8 ∨ ci.Data.length < 8 + 32)
    (hzero : leU64 (slice ci.Data 8 16) = 0) :
    parseGenericLaunchpadInstruction ci msg index t d =
      parseSwapInstruction ci msg index t ∧
    (∀ d2, parseGenericRaydiumInstruction ci msg index t d2 =
      parseAsSwapInstruction ci msg index t) := by
  have h8 : 8 ≤ ci.Data.length := by omega
  constructor
  · unfold parseGenericLaunchpadInstruction
    try dsimp only
    rw [if_pos h8]
    rw [if_neg (show ¬ (8 ≤ ci.Accounts.length ∧ 8 + 32 ≤ ci.Data.length) by omega)]
    rw [if_pos ⟨hacc, hdata⟩]
    rw [if_pos (show 8 + 8 ≤ ci.Data.length by omega)]
    rw [hzero]
    rw [if_neg (show ¬ (0 : Nat) < 0 by omega)]
    rw [if_pos ⟨by omega, by omega⟩]
  · intro d2
    unfold parseGenericRaydiumInstruction
    rw [if_pos ⟨hacc, by omega⟩]

/-- Witness for the amended C8 behaviour at the concrete instruction. -/
theorem C8_amended_zero_amount_falls_to_swap_witness :
    parseGenericLaunchpadInstruction ciC8 msgK6 0 emptyTransaction 7 =
      parseSwapInstruction ciC8 msgK6 0 emptyTransaction ∧
    (∀ d2, parseGenericRaydiumInstruction ciC8 msgK6 0 emptyTransaction d2 =
      parseAsSwapInstruction ciC8 msgK6 0 emptyTransaction) :=
  C8_amended_zero_amount_falls_to_swap ciC8 msgK6 0 emptyTransaction 7
    (by decide) (by decide) (by decide) (by decide)

/-- 17-byte payload whose leading 8 bytes are the exact complex swap
discriminator 0xf8c69e91e17587c8. -/
def dataC9e : List Nat :=
  [200, 135, 117, 225, 145, 158, 198, 248, 0, 0, 0, 0, 0, 0, 0, 0, 0]

/-- The same payload with first byte 201: its 8-byte value matches no
discriminator table, so it is decoded heuristically. -/
def dataC9h : List Nat :=
  [201, 135, 117, 225, 145, 158, 198, 248, 0, 0, 0, 0, 0, 0, 0, 0, 0]

def ciC9e : CompiledInstruction :=
  { ProgramIDIndex := 0, Accounts := [0, 1, 2, 3, 4, 5], Data := dataC9e }

def ciC9h : CompiledInstruction :=
  { ProgramIDIndex := 0, Accounts := [0, 1, 2, 3, 4, 5], Data := dataC9h }

/-- The common decode of the exact-matched and the heuristic instruction. -/
def tC9 : Transaction :=
  { Signature := "", Slot := 0, Create := [],
    Trade := [⟨0, "k0", "k1", 0xf8c69e91e17587, 0, "k0", "k2", "swap"⟩],
    TradeBuys := [], TradeSells := [0], Migrate := [],
    SwapBuys := [],
    SwapSells := [⟨"k0", "k1", 0xf8c69e91e17587, 0, 0, "k2", "k0", 0⟩] }

/-- C9 counterexample: an exact complex-discriminator match (`ciC9e`, routed
straight to the swap decoder) and a heuristic fallback decode (`ciC9h`,
unknown discriminator routed through the generic launchpad decoder) produce
byte-identical results containing a trade event — the decoded output carries
no low-confidence marker of any kind, so the two cannot be distinguished
from the result alone. -/
theorem C9_counterexample :
    leU64 (slice dataC9e 0 8) = COMPLEX_SWAP ∧
    parseRaydiumInstruction ciC9e msgK6 0 emptyTransaction = .ok tC9 ∧
    parseRaydiumLaunchpadInstructionStandard ciC9h msgK6 0 emptyTransaction = .ok tC9 ∧
    tC9.Trade.length = 1 ∧ tC9.SwapSells.length = 1 := by decide

/-- C9 amended: the decoded `Transaction` has no confidence field, and a
heuristic decode can coincide exactly with an exact-discriminator decode:
no function of the result separates the two runs. -/
theorem C9_amended_no_confidence_marker (f : Transaction → Bool) :
    (match parseRaydiumInstruction ciC9e msgK6 0 emptyTransaction with
     | .ok t => f t
     | .err _ _ => false
     | .panic => false) =
    (match parseRaydiumLaunchpadInstructionStandard ciC9h msgK6 0 emptyTransaction with
     | .ok t => f t
     | .err _ _ => false
     | .panic => false) := by
  have h1 : parseRaydiumInstruction ciC9e msgK6 0 emptyTransaction = .ok tC9 := by decide
  have h2 : parseRaydiumLaunchpadInstructionStandard ciC9h msgK6 0 emptyTransaction =
      .ok tC9 := by decide
  rw [h1, h2]

/-- C10: every successful run of the standard buy decoder (reached by simple
discriminator 6 and by the complex buy discriminators) appends exactly one
trade and one buy detail; the trade's input token is the wrapped-SOL mint
regardless of the instruction's accounts, the buy detail's MinAmountOut is
zero, and the maximum-input bound read at bytes 9..16 appears only in the
slippage field (every other output field is written out below without it). -/
theorem C10_buy_decoder_fixed_fields (ci : CompiledInstruction) (msg : Message)
    (index : Nat) (t t' : Transaction)
    (h : parseBuyInstructionStandard ci msg index t = .ok t') :
    6 ≤ ci.Accounts.length ∧
    ∃ tr b,
      t'.Trade = t.Trade ++ [tr] ∧
      t'.TradeBuys = t.TradeBuys ++ [index] ∧
      t'.SwapBuys = t.SwapBuys ++ [b] ∧
      t'.Create = t.Create ∧ t'.Migrate = t.Migrate ∧
      t'.TradeSells = t.TradeSells ∧ t'.SwapSells = t.SwapSells ∧
      tr.TokenIn = solMint ∧ tr.TradeType = "buy" ∧
      tr.AmountIn = (if 17 ≤ ci.Data.length then leU64 (slice ci.Data 1 9) else 0) ∧
      tr.AmountOut = 0 ∧
      b.TokenIn = solMint ∧ b.MinAmountOut = 0 ∧
      b.TokenOut = tr.TokenOut ∧ b.AmountIn = tr.AmountIn ∧ b.AmountOut = 0 ∧
      b.Pool = tr.Pool ∧ b.Buyer = tr.Trader ∧
      b.Slippage =
        (if 0 < (if 17 ≤ ci.Data.length then leU64 (slice ci.Data 9 17) else 0) ∧
            0 < (if 17 ≤ ci.Data.length then leU64 (slice ci.Data 1 9) else 0) then
          calculateSlippage
            (if 17 ≤ ci.Data.length then leU64 (slice ci.Data 1 9) else 0)
            (if 17 ≤ ci.Data.length then leU64 (slice ci.Data 9 17) else 0)
        else 0) := by
  unfold parseBuyInstructionStandard at h
  split at h
  · exact absurd h (by simp)
  · rename_i hlen
    try dsimp only at h
    split at h
    · rename_i trader htr
      rw [PResult.ok.injEq] at h
      subst h
      exact ⟨by omega, _, _, rfl, rfl, rfl, rfl, rfl, rfl, rfl, rfl, rfl, rfl,
        rfl, rfl, rfl, rfl, rfl, rfl, rfl, rfl, rfl⟩
    · exact absurd h (by simp)

/-- Concrete buy instruction for the C10 witness (discriminator 6, short
payload, six accounts whose first account key is not SOL). -/
def ciW10 : CompiledInstruction :=
  { ProgramIDIndex := 0, Accounts := [1, 2, 3, 4, 5, 6], Data := [6, 1, 0, 0, 0] }

/-- The decode of `ciW10` from the empty transaction. -/
def tW10 : Transaction :=
  { Signature := "", Slot := 0, Create := [],
    Trade := [⟨0, solMint, "kB", 0, 0, RaydiumV4ProgramID, "kC", "buy"⟩],
    TradeBuys := [0], TradeSells := [], Migrate := [],
    SwapBuys := [⟨solMint, "kB", 0, 0, 0, "kC", RaydiumV4ProgramID, 0⟩],
    SwapSells := [] }

/-- Witness for C10 at the concrete buy instruction. -/
theorem C10_buy_decoder_fixed_fields_witness :
    6 ≤ ciW10.Accounts.length ∧
    ∃ tr b,
      tW10.Trade = emptyTransaction.Trade ++ [tr] ∧
      tW10.TradeBuys = emptyTransaction.TradeBuys ++ [0] ∧
      tW10.SwapBuys = emptyTransaction.SwapBuys ++ [b] ∧
      tW10.Create = emptyTransaction.Create ∧
      tW10.Migrate = emptyTransaction.Migrate ∧
      tW10.TradeSells = emptyTransaction.TradeSells ∧
      tW10.SwapSells = emptyTransaction.SwapSells ∧
      tr.TokenIn = solMint ∧ tr.TradeType = "buy" ∧
      tr.AmountIn = (if 17 ≤ ciW10.Data.length then leU64 (slice ciW10.Data 1 9) else 0) ∧
      tr.AmountOut = 0 ∧
      b.TokenIn = solMint ∧ b.MinAmountOut = 0 ∧
      b.TokenOut = tr.TokenOut ∧ b.AmountIn = tr.AmountIn ∧ b.AmountOut = 0 ∧
      b.Pool = tr.Pool ∧ b.Buyer = tr.Trader ∧
      b.Slippage =
        (if 0 < (if 17 ≤ ciW10.Data.length then leU64 (slice ciW10.Data 9 17) else 0) ∧
            0 < (if 17 ≤ ciW10.Data.length then leU64 (slice ciW10.Data 1 9) else 0) then
          calculateSlippage
            (if 17 ≤ ciW10.Data.length then leU64 (slice ciW10.Data 1 9) else 0)
            (if 17 ≤ ciW10.Data.length then leU64 (slice ciW10.Data 9 17) else 0)
        else 0) :=
  C10_buy_decoder_fixed_fields ciW10 msgW1 0 emptyTransaction tW10 (by decide)

/-- Witness for the amended C7 bounds at actual 1, expected 4. -/
theorem C7_amended_slippage_range_witness :
    (((4 : Nat) = 0 ∨ (4 : Nat) ≤ 1) → calculateSlippage 1 4 = 0) ∧
    ((4 : Nat) ≠ 0 → ¬ (4 : Nat) ≤ 1 →
      calculateSlippage 1 4 =
        roundFloat (roundFloat ((4 - 1 : Nat) : ℚ) /
          roundFloat ((4 : Nat) : ℚ))) ∧
    0 ≤ calculateSlippage 1 4 ∧
    calculateSlippage 1 4 ≤ 1 :=
  C7_amended_slippage_range 1 4 (by norm_num) (by norm_num)

end RaydiumParser
